import Mathlib

/-!
Verification of the decoding front-end of `rodio` (`src/decoder/mod.rs`):
the format dispatcher `Decoder::new`, the unified decoder facade
(`Iterator` and `Source` impls for `Decoder`) and the error type
`DecoderError`.

The three concrete codec modules (`wav`, `vorbis`, `flac`) are external
subsystems whose sources are not part of this excerpt; they are modelled
abstractly as a `Codec` record of operations, and the contracts the spec
imposes on them (probe hand-back, non-restartability, fixed metadata) are
stated as explicit predicates.  Machine integers are modelled as `Nat`/`Int`:
none of the dispatcher or facade code performs arithmetic on them, so no
overflow wrapping is involved.  `Duration` is modelled abstractly as a `Nat`
(nanoseconds).
-/

namespace Rodio

/-- `DecoderError` from `src/decoder/mod.rs`: error that can happen when
creating a decoder.  A single variant carrying no payload. -/
inductive DecoderError where
  | unrecognizedFormat
  deriving DecidableEq, Repr

/-- The `fmt::Display` impl for `DecoderError`: the message written to the
formatter for each variant. -/
def DecoderError.display : DecoderError → String
  | DecoderError.unrecognizedFormat => "Unrecognized format"

/-- The `Error::description` impl for `DecoderError`. -/
def DecoderError.description : DecoderError → String
  | DecoderError.unrecognizedFormat => "Unrecognized format"

/-- A concrete codec decoder over input type `R` with decoder state `S`.
This is the boundary contract of the three external modules
(`wav::WavDecoder`, `vorbis::VorbisDecoder`, `flac::FlacDecoder`):
`new` is the probe (`try_init(input) -> Result<ConcreteDecoder, input>`,
`Except.error` carries the handed-back input), `next` is the mutating
sample iterator modelled by explicit state passing, and the remaining
fields are the `Source` metadata accessors, which take `&self` in Rust and
are therefore pure functions of the state. -/
structure Codec (R : Type) (S : Type) where
  new : R → Except R S
  next : S → Option Int × S
  size_hint : S → Nat × Option Nat
  current_frame_len : S → Option Nat
  channels : S → Nat
  samples_rate : S → Nat
  total_duration : S → Option Nat

/-- `DecoderImpl<R>` from `src/decoder/mod.rs`: the closed variant over the
three concrete decoder kinds, each holding its concrete decoder state. -/
inductive DecoderImpl (W V F : Type) where
  | wav : W → DecoderImpl W V F
  | vorbis : V → DecoderImpl W V F
  | flac : F → DecoderImpl W V F

/-- `Decoder<R>` from `src/decoder/mod.rs`: a newtype wrapper around
`DecoderImpl`. -/
structure Decoder (W V F : Type) where
  impl : DecoderImpl W V F

/-- The format tag of the active concrete decoder variant. -/
inductive Format where
  | wav
  | vorbis
  | flac
  deriving DecidableEq, Repr

variable {R W V F S A B : Type}

/-- Which variant a decoder currently holds. -/
def Decoder.format : Decoder W V F → Format
  | ⟨DecoderImpl.wav _⟩ => Format.wav
  | ⟨DecoderImpl.vorbis _⟩ => Format.vorbis
  | ⟨DecoderImpl.flac _⟩ => Format.flac

/-- `Decoder::new` from `src/decoder/mod.rs`: try the WAV probe, on failure
hand its returned input to the FLAC probe, on failure hand that returned
input to the Vorbis probe; wrap the first success in the matching
`DecoderImpl` variant; if all three fail return
`DecoderError::UnrecognizedFormat`. -/
def Decoder.new (wc : Codec R W) (vc : Codec R V) (fc : Codec R F) (data : R) :
    Except DecoderError (Decoder W V F) :=
  match wc.new data with
  | Except.ok decoder => Except.ok ⟨DecoderImpl.wav decoder⟩
  | Except.error data =>
    match fc.new data with
    | Except.ok decoder => Except.ok ⟨DecoderImpl.flac decoder⟩
    | Except.error data =>
      match vc.new data with
      | Except.ok decoder => Except.ok ⟨DecoderImpl.vorbis decoder⟩
      | Except.error _ => Except.error DecoderError.unrecognizedFormat

/-- `<Decoder as Iterator>::next`: match on the active variant and forward
to that concrete decoder's `next`.  The Rust method mutates in place; here
the updated concrete state is rewrapped in the same variant. -/
def Decoder.next (wc : Codec R W) (vc : Codec R V) (fc : Codec R F) :
    Decoder W V F → Option Int × Decoder W V F
  | ⟨DecoderImpl.wav source⟩ =>
      ((wc.next source).1, ⟨DecoderImpl.wav (wc.next source).2⟩)
  | ⟨DecoderImpl.vorbis source⟩ =>
      ((vc.next source).1, ⟨DecoderImpl.vorbis (vc.next source).2⟩)
  | ⟨DecoderImpl.flac source⟩ =>
      ((fc.next source).1, ⟨DecoderImpl.flac (fc.next source).2⟩)

/-- `<Decoder as Iterator>::size_hint`: forward to the active variant. -/
def Decoder.size_hint (wc : Codec R W) (vc : Codec R V) (fc : Codec R F) :
    Decoder W V F → Nat × Option Nat
  | ⟨DecoderImpl.wav source⟩ => wc.size_hint source
  | ⟨DecoderImpl.vorbis source⟩ => vc.size_hint source
  | ⟨DecoderImpl.flac source⟩ => fc.size_hint source

/-- `<Decoder as Source>::current_frame_len`: forward to the active variant. -/
def Decoder.current_frame_len (wc : Codec R W) (vc : Codec R V) (fc : Codec R F) :
    Decoder W V F → Option Nat
  | ⟨DecoderImpl.wav source⟩ => wc.current_frame_len source
  | ⟨DecoderImpl.vorbis source⟩ => vc.current_frame_len source
  | ⟨DecoderImpl.flac source⟩ => fc.current_frame_len source

/-- `<Decoder as Source>::channels`: forward to the active variant. -/
def Decoder.channels (wc : Codec R W) (vc : Codec R V) (fc : Codec R F) :
    Decoder W V F → Nat
  | ⟨DecoderImpl.wav source⟩ => wc.channels source
  | ⟨DecoderImpl.vorbis source⟩ => vc.channels source
  | ⟨DecoderImpl.flac source⟩ => fc.channels source

/-- `<Decoder as Source>::samples_rate`: forward to the active variant. -/
def Decoder.samples_rate (wc : Codec R W) (vc : Codec R V) (fc : Codec R F) :
    Decoder W V F → Nat
  | ⟨DecoderImpl.wav source⟩ => wc.samples_rate source
  | ⟨DecoderImpl.vorbis source⟩ => vc.samples_rate source
  | ⟨DecoderImpl.flac source⟩ => fc.samples_rate source

/-- `<Decoder as Source>::total_duration`: forward to the active variant. -/
def Decoder.total_duration (wc : Codec R W) (vc : Codec R V) (fc : Codec R F) :
    Decoder W V F → Option Nat
  | ⟨DecoderImpl.wav source⟩ => wc.total_duration source
  | ⟨DecoderImpl.vorbis source⟩ => vc.total_duration source
  | ⟨DecoderImpl.flac source⟩ => fc.total_duration source

/-- The decoder state after `n` calls to `next`. -/
def Decoder.steps (wc : Codec R W) (vc : Codec R V) (fc : Codec R F) :
    Nat → Decoder W V F → Decoder W V F
  | 0, d => d
  | n + 1, d => (Decoder.next wc vc fc (Decoder.steps wc vc fc n d)).2

/-- The sample returned by the `(n+1)`-th call to `next` (0-indexed). -/
def Decoder.nthSample (wc : Codec R W) (vc : Codec R V) (fc : Codec R F)
    (n : Nat) (d : Decoder W V F) : Option Int :=
  (Decoder.next wc vc fc (Decoder.steps wc vc fc n d)).1

/-- Modelled from the spec: the sources of the concrete codec modules
(`wav.rs`, `vorbis.rs`, `flac.rs`) are not part of this excerpt.  The spec's
format-recognition boundary requires each probe `try_init` to return
ownership of the original input unmodified on failure. -/
def ProbeReturnsInput (probe : R → Except R S) : Prop :=
  ∀ r r', probe r = Except.error r' → r' = r

/-- Modelled from the spec: the sources of the concrete codec modules are
not part of this excerpt.  The spec requires each concrete decoder's sample
sequence to be finite, forward-only and not restartable: once `next` has
produced `None`, the next call on the resulting state produces `None` again. -/
def NonRestartable (nextFn : S → Option Int × S) : Prop :=
  ∀ s, (nextFn s).1 = none → (nextFn (nextFn s).2).1 = none

/-- Modelled from the spec: the sources of the concrete codec modules are
not part of this excerpt.  The spec fixes format facts (channel count,
sample rate) for the lifetime of a decoder, so a concrete decoder's `next`
must not change them. -/
def FixedMetadata (co : Codec R S) : Prop :=
  ∀ s, co.channels (co.next s).2 = co.channels s ∧
       co.samples_rate (co.next s).2 = co.samples_rate s

/-- A probing pass in which every probe receives the original input, written
from the spec's words for comparison with `Decoder.new`: "on failure it
returns ownership of the original input unmodified, enabling the next probe
to attempt recognition", so each probe is applied to `data` itself. -/
def Decoder.newSpecOriginal (wc : Codec R W) (vc : Codec R V) (fc : Codec R F)
    (data : R) : Except DecoderError (Decoder W V F) :=
  match wc.new data with
  | Except.ok decoder => Except.ok ⟨DecoderImpl.wav decoder⟩
  | Except.error _ =>
    match fc.new data with
    | Except.ok decoder => Except.ok ⟨DecoderImpl.flac decoder⟩
    | Except.error _ =>
      match vc.new data with
      | Except.ok decoder => Except.ok ⟨DecoderImpl.vorbis decoder⟩
      | Except.error _ => Except.error DecoderError.unrecognizedFormat

/-- Concrete byte inputs for witness instantiations. -/
abbrev Bytes := List Nat

/-- A concrete test codec over `Bytes`: recognizes inputs starting with the
byte `magic` (consuming it) and then emits the remaining bytes as samples. -/
def testCodec (magic : Nat) (chans rate : Nat) : Codec Bytes Bytes where
  new := fun r => if r.head? = some magic then Except.ok r.tail else Except.error r
  next := fun s =>
    match s with
    | [] => (none, [])
    | x :: xs => (some (Int.ofNat x), xs)
  size_hint := fun s => (s.length, some s.length)
  current_frame_len := fun s => some s.length
  channels := fun _ => chans
  samples_rate := fun _ => rate
  total_duration := fun _ => none

/-- The WAV-flavoured test codec (magic byte 87, two channels, 44100 Hz). -/
def wavTest : Codec Bytes Bytes := testCodec 87 2 44100

/-- The Vorbis-flavoured test codec (magic byte 79, two channels, 48000 Hz). -/
def vorbisTest : Codec Bytes Bytes := testCodec 79 2 48000

/-- The FLAC-flavoured test codec (magic byte 102, one channel, 22050 Hz). -/
def flacTest : Codec Bytes Bytes := testCodec 102 1 22050

theorem testCodec_probe_hand_back (magic chans rate : Nat) :
    ProbeReturnsInput (testCodec magic chans rate).new := by
  intro r r' h
  by_cases hm : r.head? = some magic
  · simp [testCodec, hm] at h
  · simp [testCodec, hm] at h
    simp [h]

theorem testCodec_non_restartable (magic chans rate : Nat) :
    NonRestartable (testCodec magic chans rate).next := by
  intro s h
  match s with
  | [] => simp [testCodec]
  | x :: xs => simp [testCodec] at h

theorem testCodec_fixed_metadata (magic chans rate : Nat) :
    FixedMetadata (testCodec magic chans rate) := by
  intro s
  exact ⟨rfl, rfl⟩

theorem Decoder.steps_add (wc : Codec R W) (vc : Codec R V) (fc : Codec R F)
    (a b : Nat) (d : Decoder W V F) :
    Decoder.steps wc vc fc (a + b) d =
      Decoder.steps wc vc fc b (Decoder.steps wc vc fc a d) := by
  induction b with
  | zero => rfl
  | succ b ih => simp [Decoder.steps, ih]

theorem Decoder.next_none_step (wc : Codec R W) (vc : Codec R V) (fc : Codec R F)
    (hw : NonRestartable wc.next) (hv : NonRestartable vc.next)
    (hf : NonRestartable fc.next) (d : Decoder W V F)
    (h : (Decoder.next wc vc fc d).1 = none) :
    (Decoder.next wc vc fc (Decoder.next wc vc fc d).2).1 = none := by
  obtain ⟨impl⟩ := d
  cases impl with
  | wav s =>
    simp only [Decoder.next] at h ⊢
    exact hw s h
  | vorbis s =>
    simp only [Decoder.next] at h ⊢
    exact hv s h
  | flac s =>
    simp only [Decoder.next] at h ⊢
    exact hf s h

theorem Decoder.none_propagates (wc : Codec R W) (vc : Codec R V) (fc : Codec R F)
    (hw : NonRestartable wc.next) (hv : NonRestartable vc.next)
    (hf : NonRestartable fc.next) (d : Decoder W V F)
    (h : (Decoder.next wc vc fc d).1 = none) (k : Nat) :
    (Decoder.next wc vc fc (Decoder.steps wc vc fc k d)).1 = none := by
  induction k with
  | zero => exact h
  | succ k ih =>
    simp only [Decoder.steps]
    exact Decoder.next_none_step wc vc fc hw hv hf (Decoder.steps wc vc fc k d) ih

theorem Decoder.metadata_next_eq (wc : Codec R W) (vc : Codec R V) (fc : Codec R F)
    (hw : FixedMetadata wc) (hv : FixedMetadata vc) (hf : FixedMetadata fc)
    (d : Decoder W V F) :
    Decoder.channels wc vc fc (Decoder.next wc vc fc d).2 =
      Decoder.channels wc vc fc d ∧
    Decoder.samples_rate wc vc fc (Decoder.next wc vc fc d).2 =
      Decoder.samples_rate wc vc fc d := by
  obtain ⟨impl⟩ := d
  cases impl with
  | wav s => exact ⟨(hw s).1, (hw s).2⟩
  | vorbis s => exact ⟨(hv s).1, (hv s).2⟩
  | flac s => exact ⟨(hf s).1, (hf s).2⟩

theorem Decoder.format_next (wc : Codec R W) (vc : Codec R V) (fc : Codec R F)
    (d : Decoder W V F) :
    Decoder.format (Decoder.next wc vc fc d).2 = Decoder.format d := by
  obtain ⟨impl⟩ := d
  cases impl <;> rfl

/-- C9: the error type has exactly one variant, `UnrecognizedFormat`,
carrying no payload, and both the `Display` message and the `Error`
description are defined and non-empty for it, rendering the string
"Unrecognized format". -/
theorem C9_error_type_single_variant (e : DecoderError) :
    e = DecoderError.unrecognizedFormat ∧
    (∀ e' : DecoderError, e = e') ∧
    DecoderError.display e = "Unrecognized format" ∧
    DecoderError.description e = "Unrecognized format" ∧
    DecoderError.display e ≠ "" ∧
    DecoderError.description e ≠ "" := by
  cases e
  refine ⟨rfl, ?_, rfl, rfl, by decide, by decide⟩
  intro e'
  cases e'
  rfl

/-- C1: `Decoder::new` tries the probes in the fixed order WAV, FLAC,
Vorbis, and returns the decoder produced by the first successful probe
wrapped in the matching `DecoderImpl` variant; probes after the first
success are never attempted — the result does not depend on the later
probes, which are universally quantified in each conjunct. -/
theorem C1_probe_priority_order (wc : Codec R W) (data : R) :
    (∀ (vc : Codec R V) (fc : Codec R F) d, wc.new data = Except.ok d →
        Decoder.new wc vc fc data = Except.ok ⟨DecoderImpl.wav d⟩) ∧
    (∀ (vc : Codec R V) (fc : Codec R F) r d, wc.new data = Except.error r →
        fc.new r = Except.ok d →
        Decoder.new wc vc fc data = Except.ok ⟨DecoderImpl.flac d⟩) ∧
    (∀ (vc : Codec R V) (fc : Codec R F) r r' d, wc.new data = Except.error r →
        fc.new r = Except.error r' → vc.new r' = Except.ok d →
        Decoder.new wc vc fc data = Except.ok ⟨DecoderImpl.vorbis d⟩) := by
  refine ⟨?_, ?_, ?_⟩
  · intro vc fc d h
    simp [Decoder.new, h]
  · intro vc fc r d h h'
    simp [Decoder.new, h, h']
  · intro vc fc r r' d h h' h''
    simp [Decoder.new, h, h', h'']

theorem C1_probe_priority_order_case :
    Decoder.new wavTest vorbisTest flacTest [87, 1] =
      Except.ok ⟨DecoderImpl.wav [1]⟩ ∧
    Decoder.new wavTest vorbisTest flacTest [102, 3] =
      Except.ok ⟨DecoderImpl.flac [3]⟩ ∧
    Decoder.new wavTest vorbisTest flacTest [79, 7] =
      Except.ok ⟨DecoderImpl.vorbis [7]⟩ :=
  ⟨(C1_probe_priority_order wavTest [87, 1]).1 vorbisTest flacTest [1] rfl,
   (C1_probe_priority_order wavTest [102, 3]).2.1 vorbisTest flacTest
     [102, 3] [3] rfl rfl,
   (C1_probe_priority_order wavTest [79, 7]).2.2 vorbisTest flacTest
     [79, 7] [79, 7] [7] rfl rfl rfl⟩

/-- C2: `Decoder::new` returns an error exactly when all three probes fail
(each applied to the input handed back by the previous one); the only error
value ever returned is `UnrecognizedFormat`; and every run produces either
a complete decoder or that error — never anything else. -/
theorem C2_unrecognized_iff_all_probes_fail (wc : Codec R W) (vc : Codec R V)
    (fc : Codec R F) (data : R) :
    ((∃ e, Decoder.new wc vc fc data = Except.error e) ↔
      ∃ r1 r2 r3, wc.new data = Except.error r1 ∧
        fc.new r1 = Except.error r2 ∧ vc.new r2 = Except.error r3) ∧
    (∀ e, Decoder.new wc vc fc data = Except.error e →
        e = DecoderError.unrecognizedFormat) ∧
    ((∃ d, Decoder.new wc vc fc data = Except.ok d) ∨
      Decoder.new wc vc fc data =
        Except.error DecoderError.unrecognizedFormat) := by
  cases hw : wc.new data with
  | ok d => simp [Decoder.new, hw]
  | error r1 =>
    cases hf : fc.new r1 with
    | ok d => simp [Decoder.new, hw, hf]
    | error r2 =>
      cases hv : vc.new r2 with
      | ok d => simp [Decoder.new, hw, hf, hv]
      | error r3 =>
        simp [Decoder.new, hw, hf, hv]
        exact ⟨DecoderError.unrecognizedFormat, trivial⟩

theorem C2_unrecognized_iff_all_probes_fail_case :
    Decoder.new wavTest vorbisTest flacTest [0] =
      Except.error DecoderError.unrecognizedFormat := by
  obtain ⟨e, he⟩ :=
    (C2_unrecognized_iff_all_probes_fail wavTest vorbisTest flacTest [0]).1.mpr
      ⟨[0], [0], [0], rfl, rfl, rfl⟩
  rw [(C2_unrecognized_iff_all_probes_fail wavTest vorbisTest flacTest [0]).2.1
    e he] at he
  exact he

/-- C3: under the probe contract (a failing probe hands back the original
input unchanged), the WAV probe's hand-back equals the original input, the
FLAC probe's hand-back equals the original input, and the whole dispatch
equals a probing pass in which every probe is applied to the original,
unconsumed input. -/
theorem C3_probes_receive_original_input (wc : Codec R W) (vc : Codec R V)
    (fc : Codec R F) (data : R)
    (hw : ProbeReturnsInput wc.new) (hf : ProbeReturnsInput fc.new) :
    (∀ r, wc.new data = Except.error r → r = data) ∧
    (∀ r r', wc.new data = Except.error r → fc.new r = Except.error r' →
        r' = data) ∧
    Decoder.new wc vc fc data = Decoder.newSpecOriginal wc vc fc data := by
  refine ⟨fun r h => hw data r h,
    fun r r' h h' => (hf r r' h').trans (hw data r h), ?_⟩
  cases hwd : wc.new data with
  | ok d => simp [Decoder.new, Decoder.newSpecOriginal, hwd]
  | error r =>
    have hr := hw data r hwd
    subst hr
    cases hfd : fc.new r with
    | ok d => simp [Decoder.new, Decoder.newSpecOriginal, hwd, hfd]
    | error r' =>
      have hr' := hf r r' hfd
      subst hr'
      simp [Decoder.new, Decoder.newSpecOriginal, hwd, hfd]

theorem C3_probes_receive_original_input_case :
    Decoder.new wavTest vorbisTest flacTest [79, 9] =
      Decoder.newSpecOriginal wavTest vorbisTest flacTest [79, 9] :=
  (C3_probes_receive_original_input wavTest vorbisTest flacTest [79, 9]
    (testCodec_probe_hand_back 87 2 44100)
    (testCodec_probe_hand_back 102 1 22050)).2.2

/-- C4: every facade operation (`next`, `size_hint`, `current_frame_len`,
`channels`, `samples_rate`, `total_duration`) equals the identical
operation invoked directly on the concrete decoder variant held; the
facade adds no transformation, filtering or state of its own. -/
theorem C4_facade_pure_forwarding (wc : Codec R W) (vc : Codec R V)
    (fc : Codec R F) :
    (∀ s : W, Decoder.next wc vc fc ⟨DecoderImpl.wav s⟩ =
        ((wc.next s).1, ⟨DecoderImpl.wav (wc.next s).2⟩)) ∧
    (∀ s : V, Decoder.next wc vc fc ⟨DecoderImpl.vorbis s⟩ =
        ((vc.next s).1, ⟨DecoderImpl.vorbis (vc.next s).2⟩)) ∧
    (∀ s : F, Decoder.next wc vc fc ⟨DecoderImpl.flac s⟩ =
        ((fc.next s).1, ⟨DecoderImpl.flac (fc.next s).2⟩)) ∧
    (∀ s : W, Decoder.size_hint wc vc fc ⟨DecoderImpl.wav s⟩ =
        wc.size_hint s) ∧
    (∀ s : V, Decoder.size_hint wc vc fc ⟨DecoderImpl.vorbis s⟩ =
        vc.size_hint s) ∧
    (∀ s : F, Decoder.size_hint wc vc fc ⟨DecoderImpl.flac s⟩ =
        fc.size_hint s) ∧
    (∀ s : W, Decoder.current_frame_len wc vc fc ⟨DecoderImpl.wav s⟩ =
        wc.current_frame_len s) ∧
    (∀ s : V, Decoder.current_frame_len wc vc fc ⟨DecoderImpl.vorbis s⟩ =
        vc.current_frame_len s) ∧
    (∀ s : F, Decoder.current_frame_len wc vc fc ⟨DecoderImpl.flac s⟩ =
        fc.current_frame_len s) ∧
    (∀ s : W, Decoder.channels wc vc fc ⟨DecoderImpl.wav s⟩ =
        wc.channels s) ∧
    (∀ s : V, Decoder.channels wc vc fc ⟨DecoderImpl.vorbis s⟩ =
        vc.channels s) ∧
    (∀ s : F, Decoder.channels wc vc fc ⟨DecoderImpl.flac s⟩ =
        fc.channels s) ∧
    (∀ s : W, Decoder.samples_rate wc vc fc ⟨DecoderImpl.wav s⟩ =
        wc.samples_rate s) ∧
    (∀ s : V, Decoder.samples_rate wc vc fc ⟨DecoderImpl.vorbis s⟩ =
        vc.samples_rate s) ∧
    (∀ s : F, Decoder.samples_rate wc vc fc ⟨DecoderImpl.flac s⟩ =
        fc.samples_rate s) ∧
    (∀ s : W, Decoder.total_duration wc vc fc ⟨DecoderImpl.wav s⟩ =
        wc.total_duration s) ∧
    (∀ s : V, Decoder.total_duration wc vc fc ⟨DecoderImpl.vorbis s⟩ =
        vc.total_duration s) ∧
    (∀ s : F, Decoder.total_duration wc vc fc ⟨DecoderImpl.flac s⟩ =
        fc.total_duration s) :=
  ⟨fun _ => rfl, fun _ => rfl, fun _ => rfl, fun _ => rfl, fun _ => rfl,
   fun _ => rfl, fun _ => rfl, fun _ => rfl, fun _ => rfl, fun _ => rfl,
   fun _ => rfl, fun _ => rfl, fun _ => rfl, fun _ => rfl, fun _ => rfl,
   fun _ => rfl, fun _ => rfl, fun _ => rfl⟩

/-- C5: construction and iteration are deterministic.  Two runs on inputs
holding identical bytes produce equal construction results; when both fail
the error values coincide (both `UnrecognizedFormat`), and when both
succeed the two decoders report identical metadata and produce identical
sample sequences under iteration. -/
theorem C5_deterministic_construction (wc : Codec R W) (vc : Codec R V)
    (fc : Codec R F) (data1 data2 : R) (h : data1 = data2) :
    Decoder.new wc vc fc data1 = Decoder.new wc vc fc data2 ∧
    (∀ e1 e2, Decoder.new wc vc fc data1 = Except.error e1 →
        Decoder.new wc vc fc data2 = Except.error e2 → e1 = e2) ∧
    (∀ d1 d2, Decoder.new wc vc fc data1 = Except.ok d1 →
        Decoder.new wc vc fc data2 = Except.ok d2 →
        Decoder.channels wc vc fc d1 = Decoder.channels wc vc fc d2 ∧
        Decoder.samples_rate wc vc fc d1 = Decoder.samples_rate wc vc fc d2 ∧
        Decoder.current_frame_len wc vc fc d1 =
          Decoder.current_frame_len wc vc fc d2 ∧
        Decoder.total_duration wc vc fc d1 =
          Decoder.total_duration wc vc fc d2 ∧
        ∀ n, Decoder.nthSample wc vc fc n d1 =
          Decoder.nthSample wc vc fc n d2) := by
  subst h
  refine ⟨rfl, ?_, ?_⟩
  · intro e1 e2 _ _
    cases e1
    cases e2
    rfl
  · intro d1 d2 h1 h2
    rw [h1] at h2
    injection h2 with h2
    subst h2
    exact ⟨rfl, rfl, rfl, rfl, fun _ => rfl⟩

theorem C5_deterministic_construction_case :
    Decoder.new wavTest vorbisTest flacTest [87, 5] =
      Decoder.new wavTest vorbisTest flacTest [87, 5] ∧
    Decoder.nthSample wavTest vorbisTest flacTest 0 ⟨DecoderImpl.wav [5]⟩ =
      Decoder.nthSample wavTest vorbisTest flacTest 0 ⟨DecoderImpl.wav [5]⟩ :=
  ⟨(C5_deterministic_construction wavTest vorbisTest flacTest
      [87, 5] [87, 5] rfl).1,
   ((C5_deterministic_construction wavTest vorbisTest flacTest
      [87, 5] [87, 5] rfl).2.2 ⟨DecoderImpl.wav [5]⟩ ⟨DecoderImpl.wav [5]⟩
      rfl rfl).2.2.2.2 0⟩

/-- C6: the sample sequence is not restartable.  Under the concrete-decoder
contract that a `None` from `next` is followed by `None` again, once the
facade's `next` returns `None` at step `i`, every later step `j ≥ i` also
returns `None`. -/
theorem C6_exhausted_stays_exhausted (wc : Codec R W) (vc : Codec R V)
    (fc : Codec R F)
    (hw : NonRestartable wc.next) (hv : NonRestartable vc.next)
    (hf : NonRestartable fc.next) (d : Decoder W V F) (i j : Nat)
    (hij : i ≤ j) (h : Decoder.nthSample wc vc fc i d = none) :
    Decoder.nthSample wc vc fc j d = none := by
  obtain ⟨k, hk⟩ := Nat.le.dest hij
  subst hk
  unfold Decoder.nthSample at h ⊢
  rw [Decoder.steps_add]
  exact Decoder.none_propagates wc vc fc hw hv hf _ h k

theorem C6_exhausted_stays_exhausted_case :
    Decoder.nthSample wavTest vorbisTest flacTest 2 ⟨DecoderImpl.wav []⟩ =
      none :=
  C6_exhausted_stays_exhausted wavTest vorbisTest flacTest
    (testCodec_non_restartable 87 2 44100)
    (testCodec_non_restartable 79 2 48000)
    (testCodec_non_restartable 102 1 22050)
    ⟨DecoderImpl.wav []⟩ 0 2 (by decide) rfl

/-- C7: `channels` and `samples_rate` are fixed for the decoder's lifetime.
Under the concrete-decoder contract that `next` does not change them, their
facade values after any number of `next` calls equal the values observed at
construction; the accessors themselves are pure (`&self` in Rust) and do
not mutate the decoder. -/
theorem C7_metadata_fixed_for_lifetime (wc : Codec R W) (vc : Codec R V)
    (fc : Codec R F) (hw : FixedMetadata wc) (hv : FixedMetadata vc)
    (hf : FixedMetadata fc) (d : Decoder W V F) (n : Nat) :
    Decoder.channels wc vc fc (Decoder.steps wc vc fc n d) =
      Decoder.channels wc vc fc d ∧
    Decoder.samples_rate wc vc fc (Decoder.steps wc vc fc n d) =
      Decoder.samples_rate wc vc fc d := by
  induction n with
  | zero => exact ⟨rfl, rfl⟩
  | succ n ih =>
    have h := Decoder.metadata_next_eq wc vc fc hw hv hf
      (Decoder.steps wc vc fc n d)
    exact ⟨h.1.trans ih.1, h.2.trans ih.2⟩

theorem C7_metadata_fixed_for_lifetime_case :
    Decoder.channels wavTest vorbisTest flacTest
      (Decoder.steps wavTest vorbisTest flacTest 3 ⟨DecoderImpl.wav [1, 2]⟩) =
      Decoder.channels wavTest vorbisTest flacTest ⟨DecoderImpl.wav [1, 2]⟩ ∧
    Decoder.samples_rate wavTest vorbisTest flacTest
      (Decoder.steps wavTest vorbisTest flacTest 3 ⟨DecoderImpl.wav [1, 2]⟩) =
      Decoder.samples_rate wavTest vorbisTest flacTest
        ⟨DecoderImpl.wav [1, 2]⟩ :=
  C7_metadata_fixed_for_lifetime wavTest vorbisTest flacTest
    (testCodec_fixed_metadata 87 2 44100)
    (testCodec_fixed_metadata 79 2 48000)
    (testCodec_fixed_metadata 102 1 22050)
    ⟨DecoderImpl.wav [1, 2]⟩ 3

/-- C8: negative probes are order-independent.  Under the probe contract,
when the WAV probe fails its hand-back is the original input, so probing
FLAC or Vorbis on it gives the same outcome as probing a fresh copy of the
input; likewise after a failing FLAC probe for the Vorbis probe. -/
theorem C8_negative_probes_order_independent (wc : Codec R W)
    (vc : Codec R V) (fc : Codec R F) (data : R)
    (hw : ProbeReturnsInput wc.new) (hf : ProbeReturnsInput fc.new) :
    (∀ r, wc.new data = Except.error r →
        fc.new r = fc.new data ∧ vc.new r = vc.new data) ∧
    (∀ r, fc.new data = Except.error r → vc.new r = vc.new data) := by
  constructor
  · intro r h
    rw [hw data r h]
    exact ⟨rfl, rfl⟩
  · intro r h
    rw [hf data r h]

theorem C8_negative_probes_order_independent_case :
    flacTest.new [0] = flacTest.new [0] ∧
    vorbisTest.new [0] = vorbisTest.new [0] :=
  (C8_negative_probes_order_independent wavTest vorbisTest flacTest [0]
    (testCodec_probe_hand_back 87 2 44100)
    (testCodec_probe_hand_back 102 1 22050)).1 [0] rfl

/-- C10: the concrete decoder variant selected at construction is preserved
by every subsequent operation.  `next` — the only state-changing operation;
the metadata accessors take `&self` in Rust and are modelled as pure
functions of the state — rewraps its result in the same variant, so the
format tag is unchanged after any number of calls. -/
theorem C10_variant_preserved (wc : Codec R W) (vc : Codec R V)
    (fc : Codec R F) (d : Decoder W V F) (n : Nat) :
    Decoder.format (Decoder.next wc vc fc d).2 = Decoder.format d ∧
    Decoder.format (Decoder.steps wc vc fc n d) = Decoder.format d := by
  refine ⟨Decoder.format_next wc vc fc d, ?_⟩
  induction n with
  | zero => rfl
  | succ n ih => exact (Decoder.format_next wc vc fc _).trans ih

end Rodio
